import Mathlib

/-!
Shallow embedding of `sms/handlers.py` (Fahreeve/smshandler).

The Python module composes an SMS gateway provider mixin
(`SMSCRU_SMSHandlerMixin` or `SMSTRAFFIC_SMSHandlerMixin`) with a result
logging mixin (`SimpleLoggingMixin` or `SQLiteLoggingMixin`) over
`BaseSMSHandler`, via the factory `get_handler`.

Python dicts are embedded as association lists of `String × Value`
(insertion ordered, no duplicate keys at runtime); HTTP responses are a
status code plus the decoded body; raised exceptions are an `Except`
error channel carrying the Python exception class.
-/

set_option autoImplicit false

namespace Sms

/-- Values stored in the Python dicts the module manipulates: strings,
integers and `None`. -/
inductive Value where
  | str (s : String)
  | int (n : Int)
  | null
  deriving DecidableEq

/-- A Python dict, embedded as an insertion-ordered association list. -/
abbrev Dict := List (String × Value)

/-- Entry stored for key `k`, first match (Python dicts never hold a
duplicate key, so the first match is the entry). Models `d[k]` lookup
success and `k in d`. -/
def lookupKey : Dict → String → Option Value
  | [], _ => none
  | (k, v) :: rest, key => if k = key then some v else lookupKey rest key

/-- Python `key in d`. -/
def hasKey (d : Dict) (k : String) : Bool :=
  (lookupKey d k).isSome

/-- Python `d[key] = v`: replace in place when the key exists, append
otherwise. -/
def setKey : Dict → String → Value → Dict
  | [], key, v => [(key, v)]
  | (k, w) :: rest, key, v =>
    if k = key then (key, v) :: rest else (k, w) :: setKey rest key v

/-- Python `d.update(other)`: assign each entry of `other` into `d`,
left to right, so `other` wins on every key collision. -/
def updateDict : Dict → Dict → Dict
  | d, [] => d
  | d, (k, v) :: rest => updateDict (setKey d k v) rest

/-- Python `del`-style removal of every entry with key `key`; used to
model a keyword argument being consumed by an `__init__` signature. -/
def removeKey : Dict → String → Dict
  | [], _ => []
  | (k, v) :: rest, key =>
    if k = key then removeKey rest key else (k, v) :: removeKey rest key

/-- Well-formedness of the embedding: a real Python dict never holds two
entries with the same key. -/
def keysNodup (d : Dict) : Prop :=
  (d.map Prod.fst).Nodup

instance (d : Dict) : Decidable (keysNodup d) :=
  inferInstanceAs (Decidable ((d.map Prod.fst).Nodup))

/-- A single quote character, used by the Python `repr` rendering. -/
def sq : String := String.singleton (Char.ofNat 39)

/-- Python `repr` of one value (`repr('a') = 'a'` with quotes,
`repr(3) = 3`, `repr(None) = None`). -/
def Value.pyRepr : Value → String
  | .str s => sq ++ s ++ sq
  | .int n => toString n
  | .null => "None"

/-- Python `str`/`repr` of a dict, as produced by
`'data: \x7b\x7d'.format(user_data)` in `send`. -/
def dictRepr (d : Dict) : String :=
  "\x7b" ++ String.intercalate ", "
    (d.map fun p => sq ++ p.1 ++ sq ++ ": " ++ p.2.pyRepr) ++ "\x7d"

/-- Python exception classes raised by the module (`ValueError`,
`RuntimeError`, `KeyError` from a failed `d[k]`, `TypeError` from a
failed keyword-argument binding). -/
inductive PyError where
  | valueError (msg : String)
  | runtimeError (msg : String)
  | keyError (key : String)
  | typeError (msg : String)
  deriving DecidableEq

instance {α β : Type} [DecidableEq α] [DecidableEq β] : DecidableEq (Except α β) :=
  fun x y =>
    match x, y with
    | .ok a, .ok b =>
      if h : a = b then .isTrue (by rw [h]) else .isFalse (by intro hc; cases hc; exact h rfl)
    | .error a, .error b =>
      if h : a = b then .isTrue (by rw [h]) else .isFalse (by intro hc; cases hc; exact h rfl)
    | .ok _, .error _ => .isFalse (by intro hc; cases hc)
    | .error _, .ok _ => .isFalse (by intro hc; cases hc)

/-- Checks that a computation raised `ValueError`. -/
def isValueError {α : Type} : Except PyError α → Bool
  | .error (.valueError _) => true
  | _ => false

/-- Checks that a computation raised `KeyError`. -/
def isKeyError {α : Type} : Except PyError α → Bool
  | .error (.keyError _) => true
  | _ => false

/-- Checks that a computation returned normally. -/
def isOkE {α : Type} : Except PyError α → Bool
  | .ok _ => true
  | _ => false

/-- An HTTP exchange's reply as the module consumes it: the transport
status code and the decoded body (`r.json()` / `json.loads(r.text)`). -/
structure Response where
  status_code : Nat
  body : Dict
  deriving DecidableEq

/-- Line emitted on the `sms` logger by `SimpleLoggingMixin._log`. -/
inductive LogLine where
  | okLine (phone : Value)
  | errorLine (phone error_msg : Value)
  deriving DecidableEq

/-- `SimpleLoggingMixin._log`: `result.get('status')` is `None` when the
key is absent or maps to `None`; `'ok'` logs the phone, `'error'` logs
phone and `error_msg` (each `result[k]` raising `KeyError` when the key
is absent), any other value raises `RuntimeError`. -/
def SimpleLoggingMixin_log (result : Dict) : Except PyError LogLine :=
  let status := lookupKey result "status"
  if status = none ∨ status = some Value.null then
    .error (.valueError "Could not find \"status\" field")
  else if status = some (.str "ok") then
    match lookupKey result "phone" with
    | none => .error (.keyError "phone")
    | some ph => .ok (.okLine ph)
  else if status = some (.str "error") then
    match lookupKey result "phone" with
    | none => .error (.keyError "phone")
    | some ph =>
      match lookupKey result "error_msg" with
      | none => .error (.keyError "error_msg")
      | some msg => .ok (.errorLine ph msg)
  else
    .error (.runtimeError "Unexpected value of status")

/-- Row inserted in the `Results` table by `SQLiteLoggingMixin._log`. -/
structure Row where
  success : Int
  phone : Value
  error_code : Value
  error_msg : Value
  deriving DecidableEq

/-- Operation issued on the SQLite cursor / connection. -/
inductive DbOp where
  | insert (r : Row)
  | commit
  deriving DecidableEq

/-- `SQLiteLoggingMixin._log`: same `status` validation as the simple
logger except the unexpected-status branch raises `ValueError`; `'ok'`
inserts `(1, phone, NULL, NULL)` and commits, `'error'` inserts
`(0, phone, error_code, error_msg)` and commits, with the tuple's
subscripts `response['phone']`, `response['error_code']`,
`response['error_msg']` evaluated left to right. -/
def SQLiteLoggingMixin_log (response : Dict) : Except PyError (List DbOp) :=
  let status := lookupKey response "status"
  if status = none ∨ status = some Value.null then
    .error (.valueError "Could not find \"status\" field")
  else if status = some (.str "ok") then
    match lookupKey response "phone" with
    | none => .error (.keyError "phone")
    | some ph => .ok [.insert ⟨1, ph, .null, .null⟩, .commit]
  else if status = some (.str "error") then
    match lookupKey response "phone" with
    | none => .error (.keyError "phone")
    | some ph =>
      match lookupKey response "error_code" with
      | none => .error (.keyError "error_code")
      | some ec =>
        match lookupKey response "error_msg" with
        | none => .error (.keyError "error_msg")
        | some em => .ok [.insert ⟨0, ph, ec, em⟩, .commit]
  else
    .error (.valueError "Unexpected value of status")

/-- State of a handler composed with `SMSCRU_SMSHandlerMixin`: the
credentials stored by `BaseSMSHandler.__init__`. -/
structure SMSCRU_Handler where
  login : Value
  password : Value
  deriving DecidableEq

/-- State of a handler composed with `SMSTRAFFIC_SMSHandlerMixin`: the
credentials plus the auth token obtained at construction time. -/
structure SMSTRAFFIC_Handler where
  login : Value
  password : Value
  token : Value
  deriving DecidableEq

def SMSCRU_request_url : String := "http://smsc.ru/someapi/message/"

def SMSTRAFFIC_request_url : String := "http://smstraffic.ru/superapi/message/"

def SMSTRAFFIC_auth_url : String := "http://smstraffic.ru/superapi/auth/"

/-- Query parameters built by `SMSCRU_SMSHandlerMixin.send`:
`params = \x7b'login': self.login, 'psw': self.password\x7d` followed by
`params.update(user_data)`. -/
def SMSCRU_send_params (h : SMSCRU_Handler) (user_data : Dict) : Dict :=
  updateDict [("login", h.login), ("psw", h.password)] user_data

/-- POST body built by `SMSTRAFFIC_SMSHandlerMixin.send`:
`data = \x7b'token': self.token\x7d` followed by `data.update(user_data)`. -/
def SMSTRAFFIC_send_data (h : SMSTRAFFIC_Handler) (user_data : Dict) : Dict :=
  updateDict [("token", h.token)] user_data

/-- Outcome dict synthesized by both `send` methods when
`r.status_code != 200`: status `'error'`, `user_data.get('phone', '-')`,
`error_code` `None`, and `'data: \x7b\x7d'.format(user_data)`. -/
def transportErrorOutcome (user_data : Dict) : Dict :=
  [("status", .str "error"),
   ("phone", (lookupKey user_data "phone").getD (.str "-")),
   ("error_code", Value.null),
   ("error_msg", .str ("data: " ++ dictRepr user_data))]

/-- Observable behaviour of one `send` call: the request sent to the
gateway (URL and parameters/body) and the outcome dicts handed to
`self._log`. -/
structure SendResult where
  url : String
  request : Dict
  logged : List Dict
  deriving DecidableEq

/-- `SMSCRU_SMSHandlerMixin.send`, given the transport's reply `r`: one
GET request with the merged query parameters; a non-200 status logs the
synthesized error outcome, otherwise `r.json()` is logged unchanged. -/
def SMSCRU_send (h : SMSCRU_Handler) (user_data : Dict) (r : Response) : SendResult :=
  ⟨SMSCRU_request_url, SMSCRU_send_params h user_data,
   if r.status_code ≠ 200 then [transportErrorOutcome user_data] else [r.body]⟩

/-- `SMSTRAFFIC_SMSHandlerMixin.send`, given the transport's reply `r`:
one POST with the merged body; a non-200 status logs the synthesized
error outcome, otherwise `json.loads(r.text)` is logged unchanged. -/
def SMSTRAFFIC_send (h : SMSTRAFFIC_Handler) (user_data : Dict) (r : Response) : SendResult :=
  ⟨SMSTRAFFIC_request_url, SMSTRAFFIC_send_data h user_data,
   if r.status_code ≠ 200 then [transportErrorOutcome user_data] else [r.body]⟩

/-- Body of the auth POST issued by `SMSTRAFFIC_SMSHandlerMixin._get_token`. -/
def SMSTRAFFIC_auth_request (login password : Value) : Dict :=
  [("login", login), ("pass", password)]

/-- `SMSTRAFFIC_SMSHandlerMixin._get_token`, given the auth reply `r`:
non-200 raises `RuntimeError`; then `json.loads(r.text).get('token')`
is checked against `None` (absent key or stored `None` both raise
`RuntimeError`); otherwise the token is returned. -/
def SMSTRAFFIC_get_token (r : Response) : Except PyError Value :=
  if r.status_code ≠ 200 then
    .error (.runtimeError
      ("Invalid response status code: " ++ toString r.status_code ++ " != 200"))
  else
    match lookupKey r.body "token" with
    | none => .error (.runtimeError "Response from server does not contain token")
    | some Value.null => .error (.runtimeError "Response from server does not contain token")
    | some t => .ok t

/-- `SMSTRAFFIC_SMSHandlerMixin.__init__` after `BaseSMSHandler.__init__`
stored the credentials: `self.token = self._get_token()`; a raise in
`_get_token` propagates and no handler object is produced. -/
def SMSTRAFFIC_init (login password : Value) (r : Response) :
    Except PyError SMSTRAFFIC_Handler :=
  match SMSTRAFFIC_get_token r with
  | .error e => .error e
  | .ok t => .ok ⟨login, password, t⟩

/-- Provider mixin selected by the `handlers` registry of `get_handler`. -/
inductive HandlerKind where
  | smscru
  | smstraffic
  deriving DecidableEq

/-- Logger mixin selected by the `loggers` registry of `get_handler`. -/
inductive LoggerKind where
  | simple
  | sqlite
  deriving DecidableEq

/-- Default store location injected by `get_handler` for the `'sqlite'`
logger when `handler_data` is `None`. -/
def default_db_uri : Value := .str "file:/tmp/testdb.sqlite?mode=rw"

/-- The `handlers` registry: `handlers.get(handler_name, (None, None))`. -/
def handlers_lookup (handler_name : String) : Option (HandlerKind × Dict) :=
  if handler_name = "smsr.ru" then
    some (.smscru, [("login", .str "login"), ("password", .str "pass")])
  else if handler_name = "smstraffic.ru" then
    some (.smstraffic, [("login", .str "login"), ("password", .str "pass")])
  else none

/-- The `loggers` registry: `loggers.get(logger_name)`. -/
def loggers_lookup (logger_name : String) : Option LoggerKind :=
  if logger_name = "simple" then some .simple
  else if logger_name = "sqlite" then some .sqlite
  else none

/-- `get_handler` up to the point where `cls(**initial_data)` is invoked:
registry lookups (an unknown name raises `ValueError` before any class is
assembled or constructed), the `db_uri` default (injected only when
`handler_data is None` and `logger_name == 'sqlite'`), and the merge
`initial_data = \x7b\x7d; initial_data.update(auth_data);
initial_data.update(handler_data)`. -/
def get_handler (handler_name logger_name : String) (handler_data : Option Dict) :
    Except PyError (LoggerKind × HandlerKind × Dict) :=
  match handlers_lookup handler_name, loggers_lookup logger_name with
  | some (hk, auth_data), some lk =>
    let hd : Dict :=
      match handler_data with
      | none => if logger_name = "sqlite" then [("db_uri", default_db_uri)] else []
      | some d => d
    .ok (lk, hk, updateDict (updateDict [] auth_data) hd)
  | _, _ => .error (.valueError "Invalid handler_name or logger_name")

/-- Attributes bound by `BaseSMSHandler.__init__(self, login, password,
sender=None)`. -/
structure BaseFields where
  login : Value
  password : Value
  sender : Value
  deriving DecidableEq

/-- Keyword-argument binding of `BaseSMSHandler.__init__`: `login` and
`password` are required, `sender` defaults to `None`, and any leftover
keyword raises `TypeError` (the signature has no `**kwargs`). -/
def bindBase (kwargs : Dict) : Except PyError BaseFields :=
  match lookupKey kwargs "login" with
  | none => .error (.typeError "missing required keyword argument login")
  | some l =>
    match lookupKey kwargs "password" with
    | none => .error (.typeError "missing required keyword argument password")
    | some p =>
      let sender := (lookupKey kwargs "sender").getD Value.null
      if removeKey (removeKey (removeKey kwargs "login") "password") "sender" = [] then
        .ok ⟨l, p, sender⟩
      else .error (.typeError "unexpected keyword argument")

/-- Keyword-argument binding of `cls(**initial_data)` through the mixin
chain: `SQLiteLoggingMixin.__init__(self, db_uri, **kwargs)` consumes
`db_uri` (raising `TypeError` when it is absent), `SimpleLoggingMixin`
and both provider mixins consume nothing, and the rest reaches
`BaseSMSHandler.__init__`. -/
def construct_check (lk : LoggerKind) (initial_data : Dict) : Except PyError BaseFields :=
  match lk with
  | .simple => bindBase initial_data
  | .sqlite =>
    if hasKey initial_data "db_uri" then bindBase (removeKey initial_data "db_uri")
    else .error (.typeError "missing required keyword argument db_uri")

/-- Steps observable while `cls(**initial_data)` runs, in execution
order. -/
inductive InitEvent where
  | baseInit
  | authExchange
  | loggerStreamInit
  | storeConnect
  deriving DecidableEq

/-- `BaseSMSHandler.__init__` body: stores the credentials. -/
def BaseSMSHandler_init_events : List InitEvent := [.baseInit]

/-- Construction steps contributed by the provider mixin:
`SMSCRU_SMSHandlerMixin` defines no `__init__`, so `super()` reaches
`BaseSMSHandler` directly; `SMSTRAFFIC_SMSHandlerMixin.__init__` calls
`super().__init__(**kwargs)` first and then runs the auth exchange
`self.token = self._get_token()`. -/
def provider_init_events : HandlerKind → List InitEvent
  | .smscru => BaseSMSHandler_init_events
  | .smstraffic => BaseSMSHandler_init_events ++ [.authExchange]

/-- The step in which the logger mixin establishes its own state:
`self.logger = logging.getLogger('sms')` for `SimpleLoggingMixin`,
`sqlite3.connect` plus cursor creation for `SQLiteLoggingMixin`. -/
def logger_own_event : LoggerKind → InitEvent
  | .simple => .loggerStreamInit
  | .sqlite => .storeConnect

/-- Construction steps of the composed class
`type(name, (logger, handler, BaseSMSHandler), \x7b\x7d)`: the logger
mixin's `__init__` runs first in the MRO but begins with
`super().__init__(**kwargs)`, so every provider construction step runs
before the logger establishes its own state. -/
def handler_init_events (lk : LoggerKind) (hk : HandlerKind) : List InitEvent :=
  provider_init_events hk ++ [logger_own_event lk]

/-- Construction steps triggered by a `get_handler` call: none when the
registry lookups fail, the composed class's steps otherwise. -/
def get_handler_events (handler_name logger_name : String)
    (handler_data : Option Dict) : List InitEvent :=
  match get_handler handler_name logger_name handler_data with
  | .error _ => []
  | .ok (lk, hk, _) => handler_init_events lk hk

theorem lookupKey_setKey_self (d : Dict) (k : String) (v : Value) :
    lookupKey (setKey d k v) k = some v := by
  induction d with
  | nil => simp [setKey, lookupKey]
  | cons p rest ih =>
    obtain ⟨k', w⟩ := p
    by_cases h : k' = k
    · simp [setKey, h, lookupKey]
    · simp [setKey, h, lookupKey, ih]

theorem lookupKey_setKey_ne (d : Dict) {key k : String} (v : Value) (h : key ≠ k) :
    lookupKey (setKey d key v) k = lookupKey d k := by
  induction d with
  | nil => simp [setKey, lookupKey, h]
  | cons p rest ih =>
    obtain ⟨k', w⟩ := p
    by_cases h' : k' = key
    · subst h'
      simp [setKey, lookupKey, h]
    · simp [setKey, h', lookupKey, ih]

theorem lookupKey_updateDict_of_hasKey_eq_false (d ud : Dict) (k : String)
    (h : hasKey ud k = false) : lookupKey (updateDict d ud) k = lookupKey d k := by
  induction ud generalizing d with
  | nil => rfl
  | cons p rest ih =>
    obtain ⟨k', v⟩ := p
    have hne : k' ≠ k := by
      intro e
      subst e
      simp [hasKey, lookupKey] at h
    have hrest : hasKey rest k = false := by
      simpa [hasKey, lookupKey, hne] using h
    rw [updateDict, ih (setKey d k' v) hrest, lookupKey_setKey_ne d v hne]

theorem hasKey_eq_false_of_not_mem_keys {d : Dict} {k : String}
    (h : k ∉ d.map Prod.fst) : hasKey d k = false := by
  induction d with
  | nil => rfl
  | cons p rest ih =>
    obtain ⟨k', v⟩ := p
    simp only [List.map_cons, List.mem_cons, not_or] at h
    obtain ⟨h1, h2⟩ := h
    have hne : k' ≠ k := fun e => h1 e.symm
    have hr := ih h2
    simp [hasKey, lookupKey, hne] at hr ⊢
    exact hr

theorem lookupKey_updateDict_of_lookupKey (d ud : Dict) (k : String) (v : Value)
    (wf : keysNodup ud) (h : lookupKey ud k = some v) :
    lookupKey (updateDict d ud) k = some v := by
  induction ud generalizing d with
  | nil => simp [lookupKey] at h
  | cons p rest ih =>
    obtain ⟨k', w⟩ := p
    have wf' : k' ∉ rest.map Prod.fst ∧ keysNodup rest := by
      unfold keysNodup at wf ⊢
      simpa [List.nodup_cons] using wf
    by_cases hk : k' = k
    · subst hk
      simp only [lookupKey, eq_self_iff_true, if_true, Option.some.injEq] at h
      subst h
      rw [updateDict,
        lookupKey_updateDict_of_hasKey_eq_false _ rest k'
          (hasKey_eq_false_of_not_mem_keys wf'.1)]
      exact lookupKey_setKey_self d k' w
    · rw [lookupKey, if_neg hk] at h
      rw [updateDict]
      exact ih (setKey d k' w) wf'.2 h

/-- C1 (counterexample): `params.update(user_data)` and
`data.update(user_data)` give `user_data` precedence, so a caller-supplied
`'login'`, `'psw'` or `'token'` entry replaces the handler's own
credentials in the request actually sent to the gateway. -/
theorem C1_counterexample :
    lookupKey (SMSCRU_send_params ⟨Value.str "login", Value.str "pass"⟩
      [("login", Value.str "evil"), ("psw", Value.str "stolen")]) "login" =
      some (Value.str "evil") ∧
    lookupKey (SMSCRU_send_params ⟨Value.str "login", Value.str "pass"⟩
      [("login", Value.str "evil"), ("psw", Value.str "stolen")]) "psw" =
      some (Value.str "stolen") ∧
    some (Value.str "evil") ≠
      some ((⟨Value.str "login", Value.str "pass"⟩ : SMSCRU_Handler).login) ∧
    lookupKey (SMSTRAFFIC_send_data ⟨Value.str "login", Value.str "pass", Value.str "srv"⟩
      [("token", Value.str "forged")]) "token" = some (Value.str "forged") ∧
    some (Value.str "forged") ≠
      some ((⟨Value.str "login", Value.str "pass", Value.str "srv"⟩ :
        SMSTRAFFIC_Handler).token) := by decide

/-- C1 (amended): in the request parameters built by `send`, `user_data`
wins on every key collision, credentials included; the handler's own
`login`/`psw`/`token` are sent only for the keys `user_data` does not
supply. -/
theorem C1_amended (hA : SMSCRU_Handler) (hB : SMSTRAFFIC_Handler) (ud : Dict)
    (wf : keysNodup ud) :
    (hasKey ud "login" = false →
      lookupKey (SMSCRU_send_params hA ud) "login" = some hA.login) ∧
    (hasKey ud "psw" = false →
      lookupKey (SMSCRU_send_params hA ud) "psw" = some hA.password) ∧
    (hasKey ud "token" = false →
      lookupKey (SMSTRAFFIC_send_data hB ud) "token" = some hB.token) ∧
    (∀ k v, lookupKey ud k = some v →
      lookupKey (SMSCRU_send_params hA ud) k = some v ∧
      lookupKey (SMSTRAFFIC_send_data hB ud) k = some v) := by
  refine ⟨fun h => ?_, fun h => ?_, fun h => ?_, fun k v h => ?_⟩
  · rw [SMSCRU_send_params, lookupKey_updateDict_of_hasKey_eq_false _ _ _ h]
    simp [lookupKey]
  · rw [SMSCRU_send_params, lookupKey_updateDict_of_hasKey_eq_false _ _ _ h]
    simp [lookupKey]
  · rw [SMSTRAFFIC_send_data, lookupKey_updateDict_of_hasKey_eq_false _ _ _ h]
    simp [lookupKey]
  · exact ⟨lookupKey_updateDict_of_lookupKey _ ud k v wf h,
      lookupKey_updateDict_of_lookupKey _ ud k v wf h⟩

theorem C1_amended_witness :
    lookupKey (SMSCRU_send_params ⟨Value.str "l", Value.str "p"⟩
      [("phone", Value.str "79149009900")]) "login" = some (Value.str "l") ∧
    lookupKey (SMSTRAFFIC_send_data ⟨Value.str "l", Value.str "p", Value.str "t"⟩
      [("phone", Value.str "79149009900")]) "token" = some (Value.str "t") ∧
    lookupKey (SMSCRU_send_params ⟨Value.str "l", Value.str "p"⟩
      [("phone", Value.str "79149009900")]) "phone" =
      some (Value.str "79149009900") ∧
    lookupKey (SMSTRAFFIC_send_data ⟨Value.str "l", Value.str "p", Value.str "t"⟩
      [("phone", Value.str "79149009900")]) "phone" =
      some (Value.str "79149009900") :=
  ⟨(C1_amended ⟨Value.str "l", Value.str "p"⟩ ⟨Value.str "l", Value.str "p", Value.str "t"⟩
      [("phone", Value.str "79149009900")] (by decide)).1 (by decide),
   (C1_amended ⟨Value.str "l", Value.str "p"⟩ ⟨Value.str "l", Value.str "p", Value.str "t"⟩
      [("phone", Value.str "79149009900")] (by decide)).2.2.1 (by decide),
   ((C1_amended ⟨Value.str "l", Value.str "p"⟩ ⟨Value.str "l", Value.str "p", Value.str "t"⟩
      [("phone", Value.str "79149009900")] (by decide)).2.2.2 "phone"
      (Value.str "79149009900") (by decide)).1,
   ((C1_amended ⟨Value.str "l", Value.str "p"⟩ ⟨Value.str "l", Value.str "p", Value.str "t"⟩
      [("phone", Value.str "79149009900")] (by decide)).2.2.2 "phone"
      (Value.str "79149009900") (by decide)).2⟩

/-- C2 (counterexample): on an outcome whose status is present but neither
`'ok'` nor `'error'`, `SimpleLoggingMixin._log` raises `RuntimeError`
while `SQLiteLoggingMixin._log` raises `ValueError`, so the two logger
variants do not fail with the same exception class. -/
theorem C2_counterexample :
    SimpleLoggingMixin_log [("status", Value.str "sent")] =
      .error (.runtimeError "Unexpected value of status") ∧
    isValueError (SimpleLoggingMixin_log [("status", Value.str "sent")]) = false ∧
    SQLiteLoggingMixin_log [("status", Value.str "sent")] =
      .error (.valueError "Unexpected value of status") ∧
    isValueError (SQLiteLoggingMixin_log [("status", Value.str "sent")]) = true := by
  decide

/-- C2 (amended): when `status` is absent (or stored as `None`) both
logger variants raise `ValueError`; when `status` holds any other
unrecognized value, `SQLiteLoggingMixin._log` raises `ValueError` but
`SimpleLoggingMixin._log` raises `RuntimeError`, so the two variants
agree only in the absent-status case. -/
theorem C2_amended (outcome : Dict) :
    ((lookupKey outcome "status" = none ∨ lookupKey outcome "status" = some Value.null) →
      isValueError (SimpleLoggingMixin_log outcome) = true ∧
      isValueError (SQLiteLoggingMixin_log outcome) = true) ∧
    (∀ s, lookupKey outcome "status" = some s → s ≠ Value.str "ok" →
      s ≠ Value.str "error" → s ≠ Value.null →
      SimpleLoggingMixin_log outcome =
        .error (.runtimeError "Unexpected value of status") ∧
      SQLiteLoggingMixin_log outcome =
        .error (.valueError "Unexpected value of status")) := by
  constructor
  · intro h
    rcases h with h | h <;>
      exact ⟨by simp [SimpleLoggingMixin_log, isValueError, h],
        by simp [SQLiteLoggingMixin_log, isValueError, h]⟩
  · intro s hs h1 h2 h3
    exact ⟨by simp [SimpleLoggingMixin_log, hs, h1, h2, h3],
      by simp [SQLiteLoggingMixin_log, hs, h1, h2, h3]⟩

theorem C2_amended_witness :
    (isValueError (SimpleLoggingMixin_log [("phone", Value.str "7")]) = true ∧
     isValueError (SQLiteLoggingMixin_log [("phone", Value.str "7")]) = true) ∧
    (SimpleLoggingMixin_log [("status", Value.str "oops")] =
      .error (.runtimeError "Unexpected value of status") ∧
     SQLiteLoggingMixin_log [("status", Value.str "oops")] =
      .error (.valueError "Unexpected value of status")) :=
  ⟨(C2_amended [("phone", Value.str "7")]).1 (Or.inl rfl),
   (C2_amended [("status", Value.str "oops")]).2 (Value.str "oops") rfl
     (by decide) (by decide) (by decide)⟩

/-- C3 (counterexample): constructing the composed handler for the
`simple` logger and the SMSTRAFFIC provider runs the base init and the
construction-time auth exchange as its first two steps; the logger's own
state initialization is not among them, so the `_log` capability is not
yet established while the provider's constructor runs. -/
theorem C3_counterexample :
    (handler_init_events .simple .smstraffic).take 2 =
      [InitEvent.baseInit, InitEvent.authExchange] ∧
    InitEvent.loggerStreamInit ∉ (handler_init_events .simple .smstraffic).take 2 ∧
    handler_init_events .simple .smstraffic =
      [InitEvent.baseInit, InitEvent.authExchange, InitEvent.loggerStreamInit] := by
  decide

/-- C3 (amended): the logger mixin's `__init__` is entered first in the
MRO but immediately delegates through `super().__init__(**kwargs)`, so
every provider construction step (including SMSTRAFFIC's auth exchange)
completes before the logger establishes its own state, which is the
final construction step; `_log` is therefore not usable during the
provider's constructor. -/
theorem C3_amended (lk : LoggerKind) (hk : HandlerKind) :
    (handler_init_events lk hk).getLast? = some (logger_own_event lk) ∧
    logger_own_event lk ∉ provider_init_events hk ∧
    (handler_init_events lk hk).take (provider_init_events hk).length =
      provider_init_events hk := by
  cases lk <;> cases hk <;> decide

/-- C4: when the transport status is not 200, `send` of either provider
variant raises nothing and hands `_log` exactly one synthesized outcome
with status `'error'`, phone `user_data.get('phone', '-')`, `error_code`
`None` and `error_msg` the textual rendering of `user_data`; the
response body is never consulted (it is universally quantified here and
absent from the result). -/
theorem C4_transport_error (hA : SMSCRU_Handler) (hB : SMSTRAFFIC_Handler) (ud : Dict)
    (sc : Nat) (body : Dict) (hsc : sc ≠ 200) :
    (SMSCRU_send hA ud ⟨sc, body⟩).logged = [transportErrorOutcome ud] ∧
    (SMSTRAFFIC_send hB ud ⟨sc, body⟩).logged = [transportErrorOutcome ud] ∧
    lookupKey (transportErrorOutcome ud) "status" = some (Value.str "error") ∧
    lookupKey (transportErrorOutcome ud) "phone" =
      some ((lookupKey ud "phone").getD (Value.str "-")) ∧
    lookupKey (transportErrorOutcome ud) "error_code" = some Value.null ∧
    lookupKey (transportErrorOutcome ud) "error_msg" =
      some (Value.str ("data: " ++ dictRepr ud)) := by
  refine ⟨?_, ?_, rfl, rfl, rfl, rfl⟩
  · simp [SMSCRU_send, hsc]
  · simp [SMSTRAFFIC_send, hsc]

theorem C4_witness :
    (SMSCRU_send ⟨Value.str "l", Value.str "p"⟩ [("phone", Value.str "79149009900")]
      ⟨500, [("junk", Value.int 1)]⟩).logged =
      [transportErrorOutcome [("phone", Value.str "79149009900")]] ∧
    (SMSTRAFFIC_send ⟨Value.str "l", Value.str "p", Value.str "t"⟩
      [("phone", Value.str "79149009900")] ⟨500, [("junk", Value.int 1)]⟩).logged =
      [transportErrorOutcome [("phone", Value.str "79149009900")]] :=
  ⟨(C4_transport_error ⟨Value.str "l", Value.str "p"⟩ ⟨Value.str "l", Value.str "p", Value.str "t"⟩
      [("phone", Value.str "79149009900")] 500 [("junk", Value.int 1)] (by decide)).1,
   (C4_transport_error ⟨Value.str "l", Value.str "p"⟩ ⟨Value.str "l", Value.str "p", Value.str "t"⟩
      [("phone", Value.str "79149009900")] 500 [("junk", Value.int 1)] (by decide)).2.1⟩

/-- C5 (counterexample): `get_handler` injects the default `db_uri` only
when `handler_data is None`; with a non-empty `handler_data` that merely
lacks `db_uri`, no default is injected and `cls(**initial_data)` fails
with `TypeError` in `SQLiteLoggingMixin.__init__`, so no handler is
produced. -/
theorem C5_counterexample :
    get_handler "smsr.ru" "sqlite" (some [("sender", Value.str "Boss")]) =
      .ok (LoggerKind.sqlite, HandlerKind.smscru,
        [("login", Value.str "login"), ("password", Value.str "pass"),
         ("sender", Value.str "Boss")]) ∧
    hasKey [("login", Value.str "login"), ("password", Value.str "pass"),
      ("sender", Value.str "Boss")] "db_uri" = false ∧
    construct_check .sqlite
      [("login", Value.str "login"), ("password", Value.str "pass"),
       ("sender", Value.str "Boss")] =
      .error (.typeError "missing required keyword argument db_uri") := by
  decide

/-- C5 (amended): for every provider key in the registry, calling the
factory with the `'sqlite'` logger and no `handler_data` at all injects
the default store location into `initial_data` and the keyword-argument
binding of the composed constructor succeeds, so a handler is produced
(store accessibility being external); the default is not injected when a
`handler_data` mapping is supplied. -/
theorem C5_amended (handler_name : String) (hk : HandlerKind) (auth_data : Dict)
    (hreg : handlers_lookup handler_name = some (hk, auth_data)) :
    ∃ d, get_handler handler_name "sqlite" none = .ok (LoggerKind.sqlite, hk, d) ∧
      lookupKey d "db_uri" = some default_db_uri ∧
      isOkE (construct_check .sqlite d) = true := by
  by_cases h1 : handler_name = "smsr.ru"
  · subst h1
    rw [show handlers_lookup "smsr.ru" =
        some (.smscru, [("login", .str "login"), ("password", .str "pass")]) from rfl] at hreg
    obtain ⟨e1, e2⟩ := Prod.mk.injEq .. ▸ Option.some.inj hreg
    subst e1
    exact ⟨[("login", Value.str "login"), ("password", Value.str "pass"),
      ("db_uri", default_db_uri)], by decide, by decide, by decide⟩
  · by_cases h2 : handler_name = "smstraffic.ru"
    · subst h2
      rw [show handlers_lookup "smstraffic.ru" =
          some (.smstraffic, [("login", .str "login"), ("password", .str "pass")]) from rfl] at hreg
      obtain ⟨e1, e2⟩ := Prod.mk.injEq .. ▸ Option.some.inj hreg
      subst e1
      exact ⟨[("login", Value.str "login"), ("password", Value.str "pass"),
        ("db_uri", default_db_uri)], by decide, by decide, by decide⟩
    · exact absurd hreg (by simp [handlers_lookup, h1, h2])

theorem C5_amended_witness :
    ∃ d, get_handler "smsr.ru" "sqlite" none =
        .ok (LoggerKind.sqlite, HandlerKind.smscru, d) ∧
      lookupKey d "db_uri" = some default_db_uri ∧
      isOkE (construct_check .sqlite d) = true :=
  C5_amended "smsr.ru" HandlerKind.smscru
    [("login", Value.str "login"), ("password", Value.str "pass")] (by decide)

/-- C6 (counterexample): an auth reply with transport status 200 whose
decoded body carries the `token` field with value `None` does not lack
the field, yet construction still fails, because `_get_token` tests
`json.loads(r.text).get('token') is None`, which conflates an absent
key with a stored `None`. -/
theorem C6_counterexample :
    hasKey [("token", Value.null)] "token" = true ∧
    SMSTRAFFIC_init (Value.str "login") (Value.str "pass")
      ⟨200, [("token", Value.null)]⟩ =
      .error (.runtimeError "Response from server does not contain token") := by
  decide

/-- C6 (amended): constructing an SMSTRAFFIC handler fails with
`RuntimeError` and produces no handler when the auth reply's status is
not 200, or when the decoded body's `token` entry is absent or `None`;
otherwise the returned token is stored on the handler. -/
theorem C6_amended (login password : Value) (r : Response) :
    (r.status_code ≠ 200 →
      SMSTRAFFIC_init login password r = .error (.runtimeError
        ("Invalid response status code: " ++ toString r.status_code ++ " != 200"))) ∧
    ((r.status_code = 200 →
      (lookupKey r.body "token" = none ∨ lookupKey r.body "token" = some Value.null) →
      SMSTRAFFIC_init login password r =
        .error (.runtimeError "Response from server does not contain token"))) ∧
    (∀ t, r.status_code = 200 → lookupKey r.body "token" = some t → t ≠ Value.null →
      SMSTRAFFIC_init login password r = .ok ⟨login, password, t⟩) := by
  refine ⟨fun h => ?_, fun h ht => ?_, fun t h ht hn => ?_⟩
  · simp [SMSTRAFFIC_init, SMSTRAFFIC_get_token, h]
  · rcases ht with ht | ht <;> simp [SMSTRAFFIC_init, SMSTRAFFIC_get_token, h, ht]
  · cases t with
    | null => exact absurd rfl hn
    | str s => simp [SMSTRAFFIC_init, SMSTRAFFIC_get_token, h, ht]
    | int n => simp [SMSTRAFFIC_init, SMSTRAFFIC_get_token, h, ht]

theorem C6_amended_witness :
    SMSTRAFFIC_init (Value.str "login") (Value.str "pass") ⟨0, []⟩ =
      .error (.runtimeError "Invalid response status code: 0 != 200") ∧
    SMSTRAFFIC_init (Value.str "login") (Value.str "pass") ⟨200, []⟩ =
      .error (.runtimeError "Response from server does not contain token") ∧
    SMSTRAFFIC_init (Value.str "login") (Value.str "pass")
      ⟨200, [("token", Value.str "a")]⟩ =
      .ok ⟨Value.str "login", Value.str "pass", Value.str "a"⟩ :=
  ⟨(C6_amended (Value.str "login") (Value.str "pass") ⟨0, []⟩).1 (by decide),
   (C6_amended (Value.str "login") (Value.str "pass") ⟨200, []⟩).2.1 rfl (Or.inl rfl),
   (C6_amended (Value.str "login") (Value.str "pass")
     ⟨200, [("token", Value.str "a")]⟩).2.2 (Value.str "a") rfl rfl (by decide)⟩

/-- C7: `SQLiteLoggingMixin._log` turns an `'ok'` outcome into exactly
the operations insert `(1, phone, NULL, NULL)` then commit, and an
`'error'` outcome into exactly insert `(0, phone, error_code,
error_msg)` then commit: one insert per call, committed immediately,
with no batching and no transaction spanning further calls. -/
theorem C7_record_rows (outcome : Dict) :
    (∀ ph, lookupKey outcome "status" = some (Value.str "ok") →
      lookupKey outcome "phone" = some ph →
      SQLiteLoggingMixin_log outcome =
        .ok [.insert ⟨1, ph, Value.null, Value.null⟩, .commit]) ∧
    (∀ ph ec em, lookupKey outcome "status" = some (Value.str "error") →
      lookupKey outcome "phone" = some ph →
      lookupKey outcome "error_code" = some ec →
      lookupKey outcome "error_msg" = some em →
      SQLiteLoggingMixin_log outcome =
        .ok [.insert ⟨0, ph, ec, em⟩, .commit]) := by
  constructor
  · intro ph hs hp
    simp [SQLiteLoggingMixin_log, hs, hp]
  · intro ph ec em hs hp hec hem
    simp [SQLiteLoggingMixin_log, hs, hp, hec, hem]

theorem C7_witness :
    SQLiteLoggingMixin_log [("status", Value.str "ok"), ("phone", Value.str "79149009900")] =
      .ok [.insert ⟨1, Value.str "79149009900", Value.null, Value.null⟩, .commit] ∧
    SQLiteLoggingMixin_log
      [("status", Value.str "error"), ("phone", Value.str "79149009900"),
       ("error_code", Value.int 3500), ("error_msg", Value.str "description")] =
      .ok [.insert ⟨0, Value.str "79149009900", Value.int 3500,
        Value.str "description"⟩, .commit] :=
  ⟨(C7_record_rows [("status", Value.str "ok"), ("phone", Value.str "79149009900")]).1
     (Value.str "79149009900") rfl rfl,
   (C7_record_rows [("status", Value.str "error"), ("phone", Value.str "79149009900"),
      ("error_code", Value.int 3500), ("error_msg", Value.str "description")]).2
     (Value.str "79149009900") (Value.int 3500) (Value.str "description") rfl rfl rfl rfl⟩

/-- C8: under a 200 transport status, `send` of either provider variant
hands the decoded response body to `_log` unchanged, with nothing added,
removed or rewritten. -/
theorem C8_passthrough (hA : SMSCRU_Handler) (hB : SMSTRAFFIC_Handler) (ud : Dict)
    (r : Response) (hsc : r.status_code = 200) :
    (SMSCRU_send hA ud r).logged = [r.body] ∧
    (SMSTRAFFIC_send hB ud r).logged = [r.body] := by
  constructor <;> simp [SMSCRU_send, SMSTRAFFIC_send, hsc]

theorem C8_witness :
    (SMSCRU_send ⟨Value.str "l", Value.str "p"⟩ [("phone", Value.str "7")]
      ⟨200, [("status", Value.str "ok"), ("phone", Value.str "7")]⟩).logged =
      [[("status", Value.str "ok"), ("phone", Value.str "7")]] ∧
    (SMSTRAFFIC_send ⟨Value.str "l", Value.str "p", Value.str "t"⟩
      [("phone", Value.str "7")]
      ⟨200, [("status", Value.str "ok"), ("phone", Value.str "7")]⟩).logged =
      [[("status", Value.str "ok"), ("phone", Value.str "7")]] :=
  C8_passthrough ⟨Value.str "l", Value.str "p"⟩ ⟨Value.str "l", Value.str "p", Value.str "t"⟩
    [("phone", Value.str "7")]
    ⟨200, [("status", Value.str "ok"), ("phone", Value.str "7")]⟩ rfl

/-- C9: for every `handler_name` missing from the `handlers` registry or
`logger_name` missing from the `loggers` registry, `get_handler` raises
`ValueError` before assembling or constructing anything: no handler is
returned and no construction step runs. -/
theorem C9_invalid_names (handler_name logger_name : String) (handler_data : Option Dict)
    (h : handlers_lookup handler_name = none ∨ loggers_lookup logger_name = none) :
    get_handler handler_name logger_name handler_data =
      .error (.valueError "Invalid handler_name or logger_name") ∧
    get_handler_events handler_name logger_name handler_data = [] := by
  have hg : get_handler handler_name logger_name handler_data =
      .error (.valueError "Invalid handler_name or logger_name") := by
    rcases h with h | h
    · cases h2 : loggers_lookup logger_name <;> simp [get_handler, h, h2]
    · cases h2 : handlers_lookup handler_name with
      | none => simp [get_handler, h, h2]
      | some p =>
        obtain ⟨hk, ad⟩ := p
        simp [get_handler, h, h2]
  exact ⟨hg, by simp [get_handler_events, hg]⟩

theorem C9_witness :
    (get_handler "smsc.net" "simple" none =
      .error (.valueError "Invalid handler_name or logger_name") ∧
     get_handler_events "smsc.net" "simple" none = []) ∧
    (get_handler "smsr.ru" "loud" none =
      .error (.valueError "Invalid handler_name or logger_name") ∧
     get_handler_events "smsr.ru" "loud" none = []) :=
  ⟨C9_invalid_names "smsc.net" "simple" none (Or.inl (by decide)),
   C9_invalid_names "smsr.ru" "loud" none (Or.inr (by decide))⟩

/-- C10: logger validation checks only the `status` field; an `'ok'`
outcome with no `'phone'` key makes both `_log` variants raise
`KeyError`, and an `'error'` outcome lacking `'phone'` or `'error_msg'`
(or, for the SQLite logger, `'error_code'`) likewise raises `KeyError`
rather than `ValueError` or graceful handling. -/
theorem C10_key_errors (outcome : Dict) :
    (lookupKey outcome "status" = some (Value.str "ok") →
      lookupKey outcome "phone" = none →
      isKeyError (SimpleLoggingMixin_log outcome) = true ∧
      isKeyError (SQLiteLoggingMixin_log outcome) = true) ∧
    (lookupKey outcome "status" = some (Value.str "error") →
      ((lookupKey outcome "phone" = none ∨ lookupKey outcome "error_msg" = none) →
        isKeyError (SimpleLoggingMixin_log outcome) = true) ∧
      ((lookupKey outcome "phone" = none ∨ lookupKey outcome "error_code" = none ∨
          lookupKey outcome "error_msg" = none) →
        isKeyError (SQLiteLoggingMixin_log outcome) = true)) := by
  constructor
  · intro hs hp
    exact ⟨by simp [SimpleLoggingMixin_log, isKeyError, hs, hp],
      by simp [SQLiteLoggingMixin_log, isKeyError, hs, hp]⟩
  · intro hs
    constructor
    · intro h
      rcases h with h | h
      · simp [SimpleLoggingMixin_log, isKeyError, hs, h]
      · cases hp : lookupKey outcome "phone" <;>
          simp [SimpleLoggingMixin_log, isKeyError, hs, h, hp]
    · intro h
      rcases h with h | h | h
      · simp [SQLiteLoggingMixin_log, isKeyError, hs, h]
      · cases hp : lookupKey outcome "phone" <;>
          simp [SQLiteLoggingMixin_log, isKeyError, hs, h, hp]
      · cases hp : lookupKey outcome "phone" <;>
          cases hec : lookupKey outcome "error_code" <;>
            simp [SQLiteLoggingMixin_log, isKeyError, hs, h, hp, hec]

theorem C10_witness :
    (isKeyError (SimpleLoggingMixin_log [("status", Value.str "ok")]) = true ∧
     isKeyError (SQLiteLoggingMixin_log [("status", Value.str "ok")]) = true) ∧
    isKeyError (SimpleLoggingMixin_log
      [("status", Value.str "error"), ("phone", Value.str "7")]) = true ∧
    isKeyError (SQLiteLoggingMixin_log
      [("status", Value.str "error"), ("phone", Value.str "7"),
       ("error_msg", Value.str "m")]) = true :=
  ⟨(C10_key_errors [("status", Value.str "ok")]).1 rfl rfl,
   ((C10_key_errors [("status", Value.str "error"), ("phone", Value.str "7")]).2 rfl).1
     (Or.inr rfl),
   ((C10_key_errors [("status", Value.str "error"), ("phone", Value.str "7"),
      ("error_msg", Value.str "m")]).2 rfl).2 (Or.inr (Or.inl rfl))⟩

end Sms
